import Mathlib

/-!
Verification of the Electrician Troubleshooter backend (`src/main.py`).

The development shallowly embeds the program: the pure rule-based lookup
`troubleshoot` together with its static data (`COMMON_SAFETY`, `RULES`), and the
issue-report endpoints `create_issue` / `list_issues` over an explicit document
store.  Strings are Lean `String`s; Python's `str.strip`/`str.lower` are
modelled on the ASCII fragment relevant to the program's data.  The MongoDB
collaborator (`database.py`, `schemas.py` are not among the provided sources) is
modelled from the spec where needed; MongoDB's documented `$regex`/`$or` filter
semantics is embedded for the fragment of patterns the theorems touch.
-/

namespace ElectricianAPI

/-! ### Python string primitives (ASCII fragment) -/

/-- Whitespace stripped by Python's `str.strip()` (ASCII fragment:
space, tab, newline, carriage return, vertical tab, form feed). -/
def pyIsSpace (c : Char) : Bool :=
  c.toNat == 32 || c.toNat == 9 || c.toNat == 10 || c.toNat == 13 ||
    c.toNat == 11 || c.toNat == 12

/-- Python's `str.lower()` on a single character (ASCII case mapping,
the fragment relevant to the rule table and request strings). -/
def pyToLower (c : Char) : Char :=
  if 65 ≤ c.toNat ∧ c.toNat ≤ 90 then Char.ofNat (c.toNat + 32) else c

/-- Left strip: drop leading whitespace. -/
def lstripL (l : List Char) : List Char := l.dropWhile pyIsSpace

/-- Right strip: drop trailing whitespace. -/
def rstripL (l : List Char) : List Char := (l.reverse.dropWhile pyIsSpace).reverse

/-- Python `str.strip()`: drop whitespace at both ends. -/
def stripL (l : List Char) : List Char := rstripL (lstripL l)

/-- Python `s.strip()` on Lean strings. -/
def pyStrip (s : String) : String := ⟨stripL s.data⟩

/-- Python `s.lower()` on Lean strings. -/
def pyLower (s : String) : String := ⟨s.data.map pyToLower⟩

/-- The key normalization of `troubleshoot` (main.py line 84):
`x.strip().lower()`. -/
def normalizeKey (s : String) : String := pyLower (pyStrip s)

/-! ### Data model of the troubleshoot endpoint (main.py lines 29-49) -/

/-- A scalar reading value (`readings: Optional[Dict[str, Any]]`). -/
inductive ReadingValue where
  | num (n : Int)
  | str (s : String)
  | bool (b : Bool)
deriving DecidableEq

/-- `TroubleshootRequest` (main.py lines 29-32). -/
structure TroubleshootRequest where
  equipment_type : String
  symptom : String
  readings : Option (List (String × ReadingValue))
deriving DecidableEq

/-- `TroubleshootStep` (main.py lines 34-36). -/
structure TroubleshootStep where
  title : String
  detail : String
deriving DecidableEq

/-- `TroubleshootResponse` (main.py lines 38-42). -/
structure TroubleshootResponse where
  probable_causes : List String
  safety_notes : List String
  steps : List TroubleshootStep
  next_actions : List String
deriving DecidableEq

/-- `COMMON_SAFETY` (main.py lines 45-49). -/
def COMMON_SAFETY : List String :=
  [ "De-energize and lockout/tagout when possible before opening equipment.",
    "Use a properly rated meter and verify it on a known source before and after testing.",
    "Wear appropriate PPE for the available fault current and arc flash boundaries." ]

/-- One value of the `RULES` dict: causes, (title, detail) steps, next actions. -/
structure RuleEntry where
  causes : List String
  steps : List (String × String)
  next : List String
deriving DecidableEq

/-- `RULES` (main.py lines 52-80), as the association list underlying the
Python dict literal (keys are distinct, so dict and association list agree). -/
def RULES : List ((String × String) × RuleEntry) :=
  [ (("outlet", "no power"),
     { causes := ["Tripped breaker", "Tripped GFCI upstream", "Loose neutral or hot"]
       steps :=
         [ ("Check panel", "Verify the branch breaker is not tripped; reset if safe."),
           ("Test GFCIs", "Locate and reset any GFCI receptacles upstream in bathrooms, kitchen, garage, exterior."),
           ("Voltage test", "Measure hot-to-neutral and hot-to-ground at the receptacle; expect ~120V."),
           ("Inspect terminations", "If safe, check receptacle backstabs vs. screw terminals; tighten as needed.") ]
       next := ["Document findings and load on circuit", "Consider replacing worn receptacle"] }),
    (("light", "flickering"),
     { causes := ["Loose lamp", "Failed lamp/driver", "Loose neutral", "Dimmer incompatibility"]
       steps :=
         [ ("Secure lamp", "Reseat or replace lamp/fixture module."),
           ("Check dimmer", "Confirm fixture is compatible with installed dimmer; try bypassing dimmer."),
           ("Wiggle test", "With power off, tighten wire nuts and terminal screws in fixture box.") ]
       next := ["Check voltage stability under load", "Consider upgrading dimmer/driver"] }),
    (("breaker", "trips immediately"),
     { causes := ["Hard short to ground/neutral", "Faulty breaker"]
       steps :=
         [ ("Isolate loads", "Disconnect downstream loads and retry; if still trips, inspect homerun"),
           ("Megger/continuity", "With power off, test insulation resistance hot-to-neutral and hot-to-ground") ]
       next := ["Replace breaker after fault cleared if nuisance persists"] }) ]

/-- `RULES.get(key)` (main.py line 85): Python dict lookup. -/
def rulesGet (key : String × String) : Option RuleEntry :=
  (RULES.find? (fun e => e.1 == key)).map (fun e => e.2)

/-- The generic fallback steps of `troubleshoot` (main.py lines 88-92). -/
def fallbackSteps : List TroubleshootStep :=
  [ ⟨"Verify power", "Confirm source voltage and upstream overcurrent device status."⟩,
    ⟨"Inspect connections", "De-energize and check all terminations for tightness and damage."⟩,
    ⟨"Measure under load", "Compare open-circuit vs under-load readings to detect drops."⟩ ]

/-- `POST /api/troubleshoot` handler `troubleshoot` (main.py lines 82-106).
The `readings` field of the request is never read by the handler. -/
def troubleshoot (req : TroubleshootRequest) : TroubleshootResponse :=
  let key := (normalizeKey req.equipment_type, normalizeKey req.symptom)
  match rulesGet key with
  | none =>
      { probable_causes := ["Insufficient data"]
        safety_notes := COMMON_SAFETY
        steps := fallbackSteps
        next_actions := ["Provide more details or select a closer symptom"] }
  | some rule =>
      { probable_causes := rule.causes
        safety_notes := COMMON_SAFETY
        steps := rule.steps.map (fun td => ⟨td.1, td.2⟩)
        next_actions := rule.next }

/-! ### Document store model (main.py lines 109-133, with the `database.py` /
`schemas.py` collaborators modelled from the spec) -/

/-- A BSON-like field value stored in the document database. -/
inductive BsonValue where
  | str (s : String)
  | objectId (oid : String)
  | num (n : Int)
  | bool (b : Bool)
deriving DecidableEq

/-- A stored document: an ordered field map (Python dict with unique keys). -/
abbrev Doc := List (String × BsonValue)

/-- The `issuereport` collection of the document store. -/
abbrev Store := List Doc

/-- `HTTPException` as raised by the handlers: status code and detail. -/
structure HTTPError where
  status_code : Nat
  detail : String
deriving DecidableEq

/-- The error response both issue endpoints raise when the store handle `db`
is absent (main.py lines 112 and 119): `HTTPException(500, "Database not
configured")`.  The spec names this failure kind ServiceUnavailable. -/
def databaseNotConfigured : HTTPError := ⟨500, "Database not configured"⟩

/-- Modelled from the spec: `IssueReport` is declared in `schemas.py`, which is
not among the provided sources; per the spec it is "an arbitrary persisted
record with at least notes, symptom, location fields". -/
abbrev IssueReport := Doc

/-- Modelled from the spec: `create_document` lives in `database.py`, which is
not among the provided sources.  Per the spec it "persists the report as given"
and returns "a store-assigned unique identifier as a string"; the fresh
identifier is made an explicit parameter. -/
def create_document (store : Store) (doc : Doc) (newId : String) : String × Store :=
  (newId, store ++ [("_id", BsonValue.objectId newId) :: doc])

/-! #### MongoDB filter semantics for the filters built by `list_issues` -/

/-- One `{field: {"$regex": q, "$options": "i"}}` clause
(main.py lines 124-126); the `i` option is fixed by the source. -/
structure RegexClause where
  fieldName : String
  pattern : String
deriving DecidableEq

/-- The two filter shapes `list_issues` constructs (main.py lines 120-127):
the empty filter `{}` or the `$or` of case-insensitive `$regex` clauses. -/
inductive MongoFilter where
  | empty
  | orRegexCI (clauses : List RegexClause)
deriving DecidableEq

/-- A token of a regular expression in the modelled PCRE fragment:
a literal character or the `.` wildcard. -/
inductive RTok where
  | lit (c : Char)
  | dot
deriving DecidableEq

/-- Characters that are special in a PCRE pattern. -/
def regexSpecialChars : List Char :=
  ['\\', '.', '^', '$', '*', '+', '?', '(', ')', '[', ']', '\x7b', '\x7d', '|']

/-- Whether a character is special in a PCRE pattern. -/
def isRegexSpecial (c : Char) : Bool := regexSpecialChars.contains c

/-- Parse a PCRE pattern in the modelled fragment: literal characters, `.`
(any character but newline), and backslash escapes of non-alphanumeric
characters.  Patterns using other constructs are outside the fragment
(`none`); every theorem below only touches parsed patterns. -/
def parseRegex : List Char → Option (List RTok)
  | [] => some []
  | c :: rest =>
    if c = '\\' then
      match rest with
      | [] => none
      | d :: rest2 =>
        if d.isAlphanum then none
        else (parseRegex rest2).map (fun ts => RTok.lit d :: ts)
    else if c = '.' then (parseRegex rest).map (fun ts => RTok.dot :: ts)
    else if isRegexSpecial c then none
    else (parseRegex rest).map (fun ts => RTok.lit c :: ts)

/-- Match a token list against a prefix of the subject, case-insensitively
(the `i` option): PCRE's `.` matches any character except newline. -/
def matchToksAt : List RTok → List Char → Bool
  | [], _ => true
  | _ :: _, [] => false
  | RTok.lit c :: ts, a :: as => (pyToLower a == pyToLower c) && matchToksAt ts as
  | RTok.dot :: ts, a :: as => (a != '\n') && matchToksAt ts as

/-- Unanchored search: the token list matches at some position of the subject. -/
def searchToks (ts : List RTok) : List Char → Bool
  | [] => matchToksAt ts []
  | a :: rest => matchToksAt ts (a :: rest) || searchToks ts rest

/-- MongoDB's documented `$regex` operator with `$options: "i"` (PCRE,
case-insensitive, unanchored), on the modelled pattern fragment. -/
def regexSearchI (pattern : String) (s : String) : Bool :=
  match parseRegex pattern.data with
  | none => false
  | some ts => searchToks ts s.data

/-- The string content of a BSON value, if it is a string ( `$regex` only
matches string-valued fields). -/
def bsonAsString : BsonValue → Option String
  | BsonValue.str s => some s
  | _ => none

/-- Whether a document satisfies one `$regex` clause: the named field exists,
is a string, and the pattern matches it case-insensitively; a missing or
non-string field does not match. -/
def clauseMatches (d : Doc) (cl : RegexClause) : Bool :=
  match (d.lookup cl.fieldName).bind bsonAsString with
  | some s => regexSearchI cl.pattern s
  | none => false

/-- Whether a document satisfies a filter ( `$or` is the disjunction of its
clauses; the empty filter matches everything). -/
def filterMatches : MongoFilter → Doc → Bool
  | MongoFilter.empty, _ => true
  | MongoFilter.orRegexCI cs, d => cs.any (clauseMatches d)

/-- Modelled from the spec: `get_documents` lives in `database.py`, which is
not among the provided sources.  Per the spec the store is queried with the
given filter and limit: the stored documents satisfying the filter are
returned, up to `limit` (store order). -/
def get_documents (store : Store) (flt : MongoFilter) (limit : Nat) : List Doc :=
  (store.filter (filterMatches flt)).take limit

/-! #### The issue endpoints -/

/-- The success body of `POST /api/issues` (main.py line 114). -/
structure CreateIssueResponse where
  id : String
  message : String
deriving DecidableEq

/-- The success body of `GET /api/issues` (main.py line 133). -/
structure ListIssuesResponse where
  items : List Doc
deriving DecidableEq

/-- `POST /api/issues` handler `create_issue` (main.py lines 109-114),
returning the response (or error) together with the resulting store state. -/
def create_issue (db : Option Store) (issue : IssueReport) (newId : String) :
    Except HTTPError CreateIssueResponse × Option Store :=
  match db with
  | none => (Except.error databaseNotConfigured, none)
  | some store =>
      let r := create_document store issue newId
      (Except.ok ⟨r.1, "Issue report saved"⟩, some r.2)

/-- Python's `str(...)` on a stored field value, as applied to `_id`. -/
def pyStr : BsonValue → String
  | BsonValue.str s => s
  | BsonValue.objectId oid => oid
  | BsonValue.num n => toString n
  | BsonValue.bool b => if b then "True" else "False"

/-- Python dict assignment `d[k] = v`: overwrite in place if the key exists,
otherwise append. -/
def setField (d : Doc) (k : String) (v : BsonValue) : Doc :=
  if d.any (fun p => p.1 == k) then d.map (fun p => if p.1 == k then (k, v) else p)
  else d ++ [(k, v)]

/-- Python `d.pop(k)`: the dict without key `k`. -/
def popField (d : Doc) (k : String) : Doc := d.filter (fun p => p.1 != k)

/-- The per-document conversion of `list_issues` (main.py lines 130-132):
`if "_id" in d: d["id"] = str(d.pop("_id"))`. -/
def convertDoc (d : Doc) : Doc :=
  match d.lookup "_id" with
  | some v => setField (popField d "_id") "id" (BsonValue.str (pyStr v))
  | none => d

/-- The filter built by `list_issues` (main.py lines 120-127): `flt = {}`,
replaced by the `$or` regex filter when `if q:` holds — i.e. when `q` is
provided and non-empty (Python truthiness of strings). -/
def mkIssuesFilter (q : Option String) : MongoFilter :=
  match q with
  | some s =>
      if s = "" then MongoFilter.empty
      else MongoFilter.orRegexCI [⟨"notes", s⟩, ⟨"symptom", s⟩, ⟨"location", s⟩]
  | none => MongoFilter.empty

/-- `GET /api/issues` handler `list_issues` (main.py lines 116-133). -/
def list_issues (db : Option Store) (q : Option String) (limit : Nat) :
    Except HTTPError ListIssuesResponse :=
  match db with
  | none => Except.error databaseNotConfigured
  | some store =>
      let docs := get_documents store (mkIssuesFilter q) limit
      Except.ok ⟨docs.map convertDoc⟩

/-! #### Case-insensitive literal substring containment (the spec's notion) -/

/-- `needle` is a case-insensitive prefix of `hay` (character lists). -/
def isPrefixCI : List Char → List Char → Bool
  | [], _ => true
  | _ :: _, [] => false
  | c :: n, a :: l => (pyToLower a == pyToLower c) && isPrefixCI n l

/-- `needle` occurs case-insensitively at some position of `hay`. -/
def containsCIAux (n : List Char) : List Char → Bool
  | [] => isPrefixCI n []
  | a :: l => isPrefixCI n (a :: l) || containsCIAux n l

/-- The spec's matching notion: `hay` contains `needle` as a case-insensitive
literal substring. -/
def containsCI (hay needle : String) : Bool := containsCIAux needle.data hay.data

/-- A document's string field contains `q` as a case-insensitive substring. -/
def fieldContainsCI (d : Doc) (f : String) (q : String) : Bool :=
  match (d.lookup f).bind bsonAsString with
  | some s => containsCI s q
  | none => false

/-- The spec's record predicate for `GET /api/issues?q=...`: the notes,
symptom, or location field contains `q` as a case-insensitive substring. -/
def matchesQueryCI (q : String) (d : Doc) : Bool :=
  fieldContainsCI d "notes" q || fieldContainsCI d "symptom" q ||
    fieldContainsCI d "location" q

/-! ### Concrete data used by witnesses and counterexamples -/

/-- A one-document store whose `notes` is `"abc"`. -/
def regexStore : Store := [[("notes", BsonValue.str "abc")]]

/-- A two-document store, one mentioning the kitchen. -/
def kitchenStore : Store :=
  [ [("_id", BsonValue.objectId "a1"), ("notes", BsonValue.str "Sparks in the Kitchen outlet")],
    [("_id", BsonValue.objectId "a2"), ("notes", BsonValue.str "Garage light flickers")] ]

/-- A one-document store with a store-assigned `_id`. -/
def idStore : Store :=
  [[("_id", BsonValue.objectId "64ab"), ("notes", BsonValue.str "k")]]

/-- The `RULES` entry of the ("outlet", "no power") key, for concrete instances. -/
def outletRule : RuleEntry :=
  { causes := ["Tripped breaker", "Tripped GFCI upstream", "Loose neutral or hot"]
    steps :=
      [ ("Check panel", "Verify the branch breaker is not tripped; reset if safe."),
        ("Test GFCIs", "Locate and reset any GFCI receptacles upstream in bathrooms, kitchen, garage, exterior."),
        ("Voltage test", "Measure hot-to-neutral and hot-to-ground at the receptacle; expect ~120V."),
        ("Inspect terminations", "If safe, check receptacle backstabs vs. screw terminals; tighten as needed.") ]
    next := ["Document findings and load on circuit", "Consider replacing worn receptacle"] }

/-! ### Normalization lemmas -/

theorem toNat_ofNat_of_lt {n : Nat} (h : n < 0xd800) : (Char.ofNat n).toNat = n := by
  rw [Char.ofNat, dif_pos (Or.inl h)]
  rfl

theorem pyIsSpace_false_of_ge {c : Char} (h : 65 ≤ c.toNat) : pyIsSpace c = false := by
  simp only [pyIsSpace, Bool.or_eq_false_iff, beq_eq_false_iff_ne, ne_eq]
  omega

theorem pyToLower_idem (c : Char) : pyToLower (pyToLower c) = pyToLower c := by
  unfold pyToLower
  by_cases h : 65 ≤ c.toNat ∧ c.toNat ≤ 90
  · rw [if_pos h, if_neg]
    rw [toNat_ofNat_of_lt (by omega)]
    omega
  · rw [if_neg h, if_neg h]

theorem pyIsSpace_pyToLower (c : Char) : pyIsSpace (pyToLower c) = pyIsSpace c := by
  unfold pyToLower
  by_cases h : 65 ≤ c.toNat ∧ c.toNat ≤ 90
  · rw [if_pos h,
      pyIsSpace_false_of_ge (by rw [toNat_ofNat_of_lt (by omega)]; omega),
      pyIsSpace_false_of_ge (by omega)]
  · rw [if_neg h]

theorem dropWhile_idem (p : α → Bool) (l : List α) :
    (l.dropWhile p).dropWhile p = l.dropWhile p := by
  cases h : l.dropWhile p with
  | nil => rfl
  | cons a t =>
    have hh := List.head?_dropWhile_not p l
    rw [h] at hh
    simp only [List.head?_cons] at hh
    simp [List.dropWhile_cons, hh]

theorem dropWhile_eq_self_of_head (p : α → Bool) (l : List α)
    (h : ∀ a, l.head? = some a → p a = false) : l.dropWhile p = l := by
  cases l with
  | nil => rfl
  | cons a t => simp [List.dropWhile_cons, h a rfl]

theorem rstripL_append_eq (l : List Char) :
    rstripL l ++ (l.reverse.takeWhile pyIsSpace).reverse = l := by
  rw [rstripL, ← List.reverse_append, List.takeWhile_append_dropWhile, List.reverse_reverse]

theorem rstripL_idem (l : List Char) : rstripL (rstripL l) = rstripL l := by
  unfold rstripL
  rw [List.reverse_reverse, dropWhile_idem]

theorem lstripL_rstripL_lstripL (l : List Char) :
    lstripL (rstripL (lstripL l)) = rstripL (lstripL l) := by
  unfold lstripL
  apply dropWhile_eq_self_of_head
  intro a ha
  have happ := rstripL_append_eq (l.dropWhile pyIsSpace)
  have hhead : (l.dropWhile pyIsSpace).head? = some a := by
    rw [← happ]
    cases hc : rstripL (l.dropWhile pyIsSpace) with
    | nil => rw [hc] at ha; simp at ha
    | cons b t =>
      rw [hc] at ha
      simp only [List.head?_cons] at ha
      simp [ha]
  have hd := List.head?_dropWhile_not pyIsSpace l
  rw [hhead] at hd
  exact hd

theorem stripL_idem (l : List Char) : stripL (stripL l) = stripL l := by
  unfold stripL
  rw [lstripL_rstripL_lstripL, rstripL_idem]

theorem lstripL_map (l : List Char) :
    lstripL (l.map pyToLower) = (lstripL l).map pyToLower := by
  unfold lstripL
  rw [List.dropWhile_map, (funext pyIsSpace_pyToLower : pyIsSpace ∘ pyToLower = pyIsSpace)]

theorem rstripL_map (l : List Char) :
    rstripL (l.map pyToLower) = (rstripL l).map pyToLower := by
  unfold rstripL
  rw [← List.map_reverse, List.dropWhile_map,
    (funext pyIsSpace_pyToLower : pyIsSpace ∘ pyToLower = pyIsSpace), List.map_reverse]

theorem stripL_map (l : List Char) :
    stripL (l.map pyToLower) = (stripL l).map pyToLower := by
  unfold stripL
  rw [lstripL_map, rstripL_map]

theorem normL_idem (l : List Char) :
    (stripL ((stripL l).map pyToLower)).map pyToLower = (stripL l).map pyToLower := by
  rw [stripL_map, stripL_idem, List.map_map,
    (funext pyToLower_idem : pyToLower ∘ pyToLower = pyToLower)]

theorem normalizeKey_idem (s : String) : normalizeKey (normalizeKey s) = normalizeKey s :=
  congrArg String.mk (normL_idem s.data)

/-! ### Claims about the rule lookup engine -/

/-- Claim C1: the lookup key is normalized (stripped, lowercased) before the
table lookup, so `troubleshoot` returns the same response on any variant of
the pair differing only in letter case or surrounding whitespace:
`troubleshoot(e, s, r) = troubleshoot(normalize(e), normalize(s), r)`
for all strings `e`, `s` and any readings `r`. -/
theorem troubleshoot_normalized_key_invariant (e s : String)
    (r : Option (List (String × ReadingValue))) :
    troubleshoot ⟨e, s, r⟩ = troubleshoot ⟨normalizeKey e, normalizeKey s, r⟩ := by
  simp only [troubleshoot, normalizeKey_idem]

/-- Claim C2: whenever the normalized key is not in the rule table,
`troubleshoot` returns exactly the fixed fallback response, whose three steps
are titled "Verify power", "Inspect connections", "Measure under load". -/
theorem troubleshoot_unmatched_fallback (req : TroubleshootRequest)
    (h : rulesGet (normalizeKey req.equipment_type, normalizeKey req.symptom) = none) :
    troubleshoot req =
      { probable_causes := ["Insufficient data"]
        safety_notes := COMMON_SAFETY
        steps := fallbackSteps
        next_actions := ["Provide more details or select a closer symptom"] } ∧
    fallbackSteps.map TroubleshootStep.title =
      ["Verify power", "Inspect connections", "Measure under load"] :=
  ⟨by simp only [troubleshoot, h], rfl⟩

/-- Witness for C2: the unknown pair ("fuse", "smells burnt") of the spec's
scenario gets the fallback response. -/
theorem troubleshoot_unmatched_fallback_witness :
    rulesGet (normalizeKey "fuse", normalizeKey "smells burnt") = none ∧
    (troubleshoot ⟨"fuse", "smells burnt", none⟩ =
      { probable_causes := ["Insufficient data"]
        safety_notes := COMMON_SAFETY
        steps := fallbackSteps
        next_actions := ["Provide more details or select a closer symptom"] } ∧
    fallbackSteps.map TroubleshootStep.title =
      ["Verify power", "Inspect connections", "Measure under load"]) :=
  ⟨by decide, troubleshoot_unmatched_fallback ⟨"fuse", "smells burnt", none⟩ (by decide)⟩

/-- Claim C3: every `troubleshoot` response, matched or not, carries the same
fixed three-item `safety_notes` list `COMMON_SAFETY`. -/
theorem troubleshoot_safety_notes_constant (req req' : TroubleshootRequest) :
    (troubleshoot req).safety_notes = COMMON_SAFETY ∧
    (troubleshoot req).safety_notes = (troubleshoot req').safety_notes ∧
    COMMON_SAFETY.length = 3 := by
  have key : ∀ r : TroubleshootRequest, (troubleshoot r).safety_notes = COMMON_SAFETY := by
    intro r
    cases h : rulesGet (normalizeKey r.equipment_type, normalizeKey r.symptom) <;>
      simp [troubleshoot, h]
  exact ⟨key req, (key req).trans (key req').symm, rfl⟩

/-- Claim C4: whenever the normalized key matches a rule entry, `troubleshoot`
returns that entry's causes, steps, and next actions verbatim, preserving
order (the (title, detail) pairs become `TroubleshootStep`s positionally). -/
theorem troubleshoot_matched_verbatim (req : TroubleshootRequest) (rule : RuleEntry)
    (h : rulesGet (normalizeKey req.equipment_type, normalizeKey req.symptom) = some rule) :
    troubleshoot req =
      { probable_causes := rule.causes
        safety_notes := COMMON_SAFETY
        steps := rule.steps.map (fun td => ⟨td.1, td.2⟩)
        next_actions := rule.next } := by
  simp only [troubleshoot, h]

/-- Witness for C4: the ("outlet", "no power") key matches its table entry and
the entry content is returned verbatim. -/
theorem troubleshoot_matched_verbatim_witness :
    rulesGet (normalizeKey "outlet", normalizeKey "no power") = some
      { causes := ["Tripped breaker", "Tripped GFCI upstream", "Loose neutral or hot"]
        steps :=
          [ ("Check panel", "Verify the branch breaker is not tripped; reset if safe."),
            ("Test GFCIs", "Locate and reset any GFCI receptacles upstream in bathrooms, kitchen, garage, exterior."),
            ("Voltage test", "Measure hot-to-neutral and hot-to-ground at the receptacle; expect ~120V."),
            ("Inspect terminations", "If safe, check receptacle backstabs vs. screw terminals; tighten as needed.") ]
        next := ["Document findings and load on circuit", "Consider replacing worn receptacle"] } ∧
    troubleshoot ⟨"outlet", "no power", none⟩ =
      { probable_causes := ["Tripped breaker", "Tripped GFCI upstream", "Loose neutral or hot"]
        safety_notes := COMMON_SAFETY
        steps :=
          [ ⟨"Check panel", "Verify the branch breaker is not tripped; reset if safe."⟩,
            ⟨"Test GFCIs", "Locate and reset any GFCI receptacles upstream in bathrooms, kitchen, garage, exterior."⟩,
            ⟨"Voltage test", "Measure hot-to-neutral and hot-to-ground at the receptacle; expect ~120V."⟩,
            ⟨"Inspect terminations", "If safe, check receptacle backstabs vs. screw terminals; tighten as needed."⟩ ]
        next_actions := ["Document findings and load on circuit", "Consider replacing worn receptacle"] } :=
  ⟨by decide, troubleshoot_matched_verbatim ⟨"outlet", "no power", none⟩ outletRule (by decide)⟩

/-- Claim C7: the spec's scenario equipment_type="Outlet", symptom=" No Power ":
the stated causes, four steps with first title "Check panel", and the stated
next actions. -/
theorem troubleshoot_outlet_no_power_scenario :
    (troubleshoot ⟨"Outlet", " No Power ", none⟩).probable_causes =
      ["Tripped breaker", "Tripped GFCI upstream", "Loose neutral or hot"] ∧
    (troubleshoot ⟨"Outlet", " No Power ", none⟩).steps.length = 4 ∧
    ((troubleshoot ⟨"Outlet", " No Power ", none⟩).steps.head?).map TroubleshootStep.title =
      some "Check panel" ∧
    (troubleshoot ⟨"Outlet", " No Power ", none⟩).next_actions =
      ["Document findings and load on circuit", "Consider replacing worn receptacle"] := by
  decide

/-- Claim C8: the response does not depend on the `readings` field — requests
equal in `equipment_type` and `symptom` but with arbitrary readings yield
identical responses. -/
theorem troubleshoot_independent_of_readings (e s : String)
    (r₁ r₂ : Option (List (String × ReadingValue))) :
    troubleshoot ⟨e, s, r₁⟩ = troubleshoot ⟨e, s, r₂⟩ := rfl

/-! ### Claims about the issue endpoints -/

/-- Claim C5: with the store unconfigured (`db is None`), both `create_issue`
and `list_issues` fail with the explicit error response
`HTTPException(500, "Database not configured")` — the spec's ServiceUnavailable
condition — and the store state is unchanged (no record is created). -/
theorem unconfigured_store_rejects_create_and_list (issue : IssueReport) (newId : String)
    (q : Option String) (limit : Nat) :
    create_issue none issue newId = (Except.error databaseNotConfigured, none) ∧
    list_issues none q limit = Except.error databaseNotConfigured :=
  ⟨rfl, rfl⟩

/-- Claim C10: `list_issues` treats the empty-string query exactly like an
omitted query (Python's `if q:` is false for the empty string): no field
filter is applied in either case. -/
theorem list_issues_empty_query_as_omitted (db : Option Store) (limit : Nat) :
    list_issues db (some "") limit = list_issues db none limit := by
  cases db <;> rfl

/-! ### Dictionary lemmas for the id conversion (C9) -/

theorem lookup_popField_self (d : Doc) (k : String) : (popField d k).lookup k = none := by
  induction d with
  | nil => rfl
  | cons p t ih =>
    obtain ⟨a, b⟩ := p
    by_cases h : a = k
    · simpa [popField, List.filter_cons, h] using ih
    · have hk : (k == a) = false := beq_eq_false_iff_ne.mpr (Ne.symm h)
      have ha : (a != k) = true := by simp [bne, h]
      simpa [popField, List.filter_cons, ha, List.lookup, hk] using ih

theorem lookup_map_replace_of_any (d : Doc) (k : String) (v : BsonValue)
    (h : d.any (fun p => p.1 == k) = true) :
    (d.map (fun p => if p.1 == k then (k, v) else p)).lookup k = some v := by
  induction d with
  | nil => simp at h
  | cons p t ih =>
    obtain ⟨a, b⟩ := p
    by_cases hak : a = k
    · subst hak
      simp [List.lookup_cons]
    · have hk : (a == k) = false := beq_eq_false_iff_ne.mpr hak
      have hk2 : (k == a) = false := beq_eq_false_iff_ne.mpr (Ne.symm hak)
      simp only [List.any_cons, hk, Bool.false_or] at h
      simp only [List.map_cons, hk, Bool.false_eq_true, if_false, List.lookup_cons, hk2]
      exact ih h

theorem lookup_append_single_self (d : Doc) (k : String) (v : BsonValue)
    (h : d.any (fun p => p.1 == k) = false) :
    (d ++ [(k, v)]).lookup k = some v := by
  induction d with
  | nil => simp [List.lookup]
  | cons p t ih =>
    obtain ⟨a, b⟩ := p
    simp only [List.any_cons, Bool.or_eq_false_iff] at h
    have hk2 : (k == a) = false := by
      rw [beq_eq_false_iff_ne]
      intro e
      rw [e] at h
      simp at h
    simpa [List.cons_append, List.lookup, hk2] using ih h.2

theorem lookup_setField_self (d : Doc) (k : String) (v : BsonValue) :
    (setField d k v).lookup k = some v := by
  unfold setField
  by_cases h : d.any (fun p => p.1 == k) = true
  · rw [if_pos h]
    exact lookup_map_replace_of_any d k v h
  · rw [if_neg h]
    exact lookup_append_single_self d k v (Bool.not_eq_true _ ▸ h)

theorem lookup_map_replace_ne (d : Doc) (k k' : String) (v : BsonValue) (h : k' ≠ k) :
    (d.map (fun p => if p.1 == k then (k, v) else p)).lookup k' = d.lookup k' := by
  induction d with
  | nil => rfl
  | cons p t ih =>
    obtain ⟨a, b⟩ := p
    by_cases hak : a = k
    · subst hak
      have hk : (k' == a) = false := beq_eq_false_iff_ne.mpr h
      simp only [List.map_cons, beq_self_eq_true, if_true, List.lookup_cons, hk]
      exact ih
    · have hk : (a == k) = false := beq_eq_false_iff_ne.mpr hak
      simp only [List.map_cons, hk, Bool.false_eq_true, if_false, List.lookup_cons]
      by_cases hk' : k' = a
      · simp [hk']
      · simp only [beq_eq_false_iff_ne.mpr hk']
        exact ih

theorem lookup_append_single_ne (d : Doc) (k k' : String) (v : BsonValue) (h : k' ≠ k) :
    (d ++ [(k, v)]).lookup k' = d.lookup k' := by
  induction d with
  | nil => simp [List.lookup, beq_eq_false_iff_ne.mpr h]
  | cons p t ih =>
    obtain ⟨a, b⟩ := p
    by_cases hk' : k' = a
    · simp [List.cons_append, List.lookup, hk']
    · simpa [List.cons_append, List.lookup, beq_eq_false_iff_ne.mpr hk'] using ih

theorem lookup_setField_ne (d : Doc) (k k' : String) (v : BsonValue) (h : k' ≠ k) :
    (setField d k v).lookup k' = d.lookup k' := by
  unfold setField
  by_cases hc : d.any (fun p => p.1 == k) = true
  · rw [if_pos hc]
    exact lookup_map_replace_ne d k k' v h
  · rw [if_neg hc]
    exact lookup_append_single_ne d k k' v h

theorem convertDoc_lookup (d : Doc) (v : BsonValue) (hv : d.lookup "_id" = some v) :
    (convertDoc d).lookup "_id" = none ∧
    (convertDoc d).lookup "id" = some (BsonValue.str (pyStr v)) := by
  have hconv : convertDoc d = setField (popField d "_id") "id" (BsonValue.str (pyStr v)) := by
    unfold convertDoc
    rw [hv]
  constructor
  · rw [hconv, lookup_setField_ne _ _ _ _ (by decide)]
    exact lookup_popField_self d "_id"
  · rw [hconv]
    exact lookup_setField_self _ _ _

/-- Claim C9: whenever every stored document carries a store-assigned `_id`
(as the document store guarantees on creation), every record returned by
`list_issues` exposes a string identifier under `id` and no longer exposes the
internal `_id` field. -/
theorem list_issues_id_exposure (store : Store) (q : Option String) (limit : Nat)
    (h : ∀ d ∈ store, ∃ v, d.lookup "_id" = some v) :
    ∀ items, list_issues (some store) q limit = Except.ok ⟨items⟩ →
      ∀ x ∈ items, x.lookup "_id" = none ∧
        ∃ s, x.lookup "id" = some (BsonValue.str s) := by
  intro items hitems x hx
  have hitems' : (get_documents store (mkIssuesFilter q) limit).map convertDoc = items := by
    simpa only [list_issues, Except.ok.injEq, ListIssuesResponse.mk.injEq] using hitems
  rw [← hitems'] at hx
  obtain ⟨d, hd, rfl⟩ := List.mem_map.mp hx
  have hdstore : d ∈ store := by
    have h1 : d ∈ store.filter (filterMatches (mkIssuesFilter q)) :=
      List.take_subset _ _ hd
    exact List.mem_of_mem_filter h1
  obtain ⟨v, hv⟩ := h d hdstore
  have hc := convertDoc_lookup d v hv
  exact ⟨hc.1, ⟨pyStr v, hc.2⟩⟩

/-- Witness for C9 on a concrete one-document store. -/
theorem list_issues_id_exposure_witness :
    (∀ d ∈ idStore, ∃ v, d.lookup "_id" = some v) ∧
    (∀ items, list_issues (some idStore) none 50 = Except.ok ⟨items⟩ →
      ∀ x ∈ items, x.lookup "_id" = none ∧
        ∃ s, x.lookup "id" = some (BsonValue.str s)) := by
  have hyp : ∀ d ∈ idStore, ∃ v, d.lookup "_id" = some v := by
    intro d hd
    simp only [idStore, List.mem_singleton] at hd
    subst hd
    exact ⟨BsonValue.objectId "64ab", rfl⟩
  exact ⟨hyp, list_issues_id_exposure idStore none 50 hyp⟩

/-! ### Regex-vs-substring lemmas (C6) -/

theorem parseRegex_cons (c : Char) (rest : List Char) :
    parseRegex (c :: rest) =
      (if c = '\\' then
        match rest with
        | [] => none
        | d :: rest2 =>
          if d.isAlphanum then none
          else (parseRegex rest2).map (fun ts => RTok.lit d :: ts)
      else if c = '.' then (parseRegex rest).map (fun ts => RTok.dot :: ts)
      else if isRegexSpecial c then none
      else (parseRegex rest).map (fun ts => RTok.lit c :: ts)) := by
  rw [parseRegex.eq_def]

theorem parseRegex_plain (l : List Char) (h : ∀ c ∈ l, isRegexSpecial c = false) :
    parseRegex l = some (l.map RTok.lit) := by
  induction l with
  | nil => rfl
  | cons c rest ih =>
    have hc : isRegexSpecial c = false := h c (List.mem_cons_self c rest)
    have h1 : ¬ c = '\\' := by
      intro e
      rw [e] at hc
      exact absurd hc (by decide)
    have h2 : ¬ c = '.' := by
      intro e
      rw [e] at hc
      exact absurd hc (by decide)
    rw [parseRegex_cons, if_neg h1, if_neg h2, if_neg (by simp [hc]),
      ih (fun a ha => h a (List.mem_cons_of_mem c ha))]
    rfl

theorem matchToksAt_lit (n l : List Char) :
    matchToksAt (n.map RTok.lit) l = isPrefixCI n l := by
  induction n generalizing l with
  | nil => cases l <;> rfl
  | cons c n ih =>
    cases l with
    | nil => rfl
    | cons a l => simp only [List.map_cons, matchToksAt, isPrefixCI, ih]

theorem searchToks_lit (n l : List Char) :
    searchToks (n.map RTok.lit) l = containsCIAux n l := by
  induction l with
  | nil => simp only [searchToks, containsCIAux, matchToksAt_lit]
  | cons a l ih => simp only [searchToks, containsCIAux, matchToksAt_lit, ih]

theorem regexSearchI_plain (q s : String) (h : ∀ c ∈ q.data, isRegexSpecial c = false) :
    regexSearchI q s = containsCI s q := by
  unfold regexSearchI containsCI
  rw [parseRegex_plain q.data h]
  exact searchToks_lit q.data s.data

theorem clauseMatches_plain (d : Doc) (f q : String)
    (h : ∀ c ∈ q.data, isRegexSpecial c = false) :
    clauseMatches d ⟨f, q⟩ = fieldContainsCI d f q := by
  unfold clauseMatches fieldContainsCI
  cases (d.lookup f).bind bsonAsString with
  | none => rfl
  | some s => exact regexSearchI_plain q s h

/-- Counterexample to C6 as stated: with the stored record whose `notes` is
"abc" and the query "a.c", the list operation returns the record (the `.` is a
regex wildcard), although "a.c" is not a literal substring of "abc" — so the
returned records are not exactly those containing the query as a
case-insensitive literal substring. -/
theorem list_issues_regex_metachar_counterexample :
    list_issues (some regexStore) (some "a.c") 50 =
      Except.ok ⟨[[("notes", BsonValue.str "abc")]]⟩ ∧
    containsCI "abc" "a.c" = false :=
  ⟨rfl, by decide⟩

/-- Claim C6 as amended: the query is interpreted as a case-insensitive
regular expression; for every provided non-empty query without
regular-expression metacharacters this coincides with case-insensitive literal
substring matching over notes, symptom, and location (OR across the fields),
up to `limit` and with the id conversion applied. -/
theorem list_issues_plain_query_substring (store : Store) (q : String) (limit : Nat)
    (hq : q ≠ "") (hplain : ∀ c ∈ q.data, isRegexSpecial c = false) :
    list_issues (some store) (some q) limit =
      Except.ok ⟨((store.filter (matchesQueryCI q)).take limit).map convertDoc⟩ := by
  have hfilt : ∀ d ∈ store, filterMatches (mkIssuesFilter (some q)) d = matchesQueryCI q d := by
    intro d _
    simp only [mkIssuesFilter, if_neg hq, filterMatches, List.any_cons, List.any_nil,
      clauseMatches_plain d _ q hplain, matchesQueryCI, Bool.or_false, Bool.or_assoc]
  simp only [list_issues, get_documents]
  rw [List.filter_congr hfilt]

/-- Witness for the amended C6: the spec's q="kitchen" scenario on a concrete
two-document store. -/
theorem list_issues_plain_query_substring_witness :
    (("kitchen" : String) ≠ "" ∧ ∀ c ∈ ("kitchen" : String).data, isRegexSpecial c = false) ∧
    list_issues (some kitchenStore) (some "kitchen") 50 =
      Except.ok ⟨((kitchenStore.filter (matchesQueryCI "kitchen")).take 50).map convertDoc⟩ :=
  ⟨⟨by decide, by decide⟩,
    list_issues_plain_query_substring kitchenStore "kitchen" 50 (by decide) (by decide)⟩

end ElectricianAPI
